import Mathlib

/-!
Verification development for the ic-password-auth library
(src/lib/ic-password-auth.ts, both evolutions of the file).

The TypeScript source is shallowly embedded: byte strings are lists of
naturals, remote calls and other nondeterministic or platform effects
(argon2, SHA-256, random key generation, the delegation canister, the
storage backend, JSON serialization) are supplied by an oracle
environment Env, and the mutable fields of the ICPasswordAuth class are
threaded explicitly through an AuthState record.  Calls to configured
callbacks and to the two canister methods are recorded as a trace of
events.  Timestamps are in milliseconds unless stated otherwise;
canister times are in nanoseconds, as in the source.
-/

/-- Byte strings (each entry is intended to be below 256). -/
abbrev Bytes := List Nat

/-- TextEncoder().encode: UTF-8 encoding of a string. -/
def utf8 (s : String) : Bytes := s.toUTF8.toList.map (fun b => b.toNat)

/-- One lowercase hexadecimal digit, as produced by Number.prototype.toString(16). -/
def hexDigit (n : Nat) : Char :=
  match n with
  | 0 => '0' | 1 => '1' | 2 => '2' | 3 => '3'
  | 4 => '4' | 5 => '5' | 6 => '6' | 7 => '7'
  | 8 => '8' | 9 => '9' | 10 => 'a' | 11 => 'b'
  | 12 => 'c' | 13 => 'd' | 14 => 'e' | _ => 'f'

/-- b.toString(16).padStart(2, the zero digit): two lowercase hex digits of a byte. -/
def jsHexByte (b : Nat) : String :=
  if b < 16 then String.mk ['0', hexDigit b]
  else String.mk [hexDigit (b / 16), hexDigit (b % 16)]

/-- Array.from(bytes).map(hex).join of the source: lowercase hex of a byte string. -/
def hexEncode (bs : Bytes) : String := String.join (bs.map jsHexByte)

/-- The fixed 12-byte Ed25519 SubjectPublicKeyInfo DER header used by
derEncodePublicKey (source lines 1192-1195). -/
def DER_PREFIX_BYTES : Bytes :=
  [0x30, 0x2a, 0x30, 0x05, 0x06, 0x03, 0x2b, 0x65, 0x70, 0x03, 0x21, 0x00]

/-- derEncodePublicKey: the DER header followed by the raw public key
(source lines 1191-1202; building a buffer and writing the header at
offset 0 and the key after it is list concatenation). -/
def derEncodePublicKey (publicKey : Bytes) : Bytes :=
  DER_PREFIX_BYTES ++ publicKey

/-- An Ed25519 key pair as returned by tweetnacl. -/
structure KeyPair where
  publicKey : Bytes
  secretKey : Bytes
deriving DecidableEq, Repr

/-- Parameters of one argon2.hash invocation.  The source field named
type is called argonType here (type is a reserved word in Lean). -/
structure ArgonParams where
  pass : Bytes
  salt : Bytes
  time : Nat
  mem : Nat
  hashLen : Nat
  parallelism : Nat
  argonType : Nat
deriving DecidableEq, Repr

/-- argon2-browser numeric constant for the Argon2id variant
(ArgonType.Argon2id; the v2 source passes the literal 2 with a comment
naming Argon2id). -/
def Argon2id : Nat := 2

/-- The argon2 parameters built by authenticate for a given username and
password (source lines 1472-1488). -/
def argonParams (username password : String) : ArgonParams :=
  { pass := utf8 password
    salt := utf8 ("icpasswordlogin" ++ username)
    time := 3
    mem := 65536
    hashLen := 32
    parallelism := 1
    argonType := 2 }

/-- The fixed requested delegation lifetime: BigInt(30 * 60) * BigInt(1e9)
nanoseconds (source line 1546). -/
def expireInNanoseconds : Nat := 1800 * 1000000000

/-- StoredSession: the persisted session record (source lines 995-999). -/
structure StoredSession where
  delegationChain : String
  expiresAt : Nat
  principal : String
deriving DecidableEq, Repr

/-- The ok payload of prepareDelegationPassword. -/
structure PrepOk where
  expireAt : Nat
  isNew : Bool
  pubKey : Bytes
deriving DecidableEq, Repr

/-- PrepRes: response variant of prepareDelegationPassword (source lines 1002-1004). -/
inductive PrepRes where
  | ok (v : PrepOk)
  | err (e : String)
deriving DecidableEq, Repr

/-- One raw signed delegation in an AuthResponse; targets uses the candid
opt encoding, a list holding zero or one target lists. -/
structure DelegationRaw where
  pubkey : Bytes
  expiration : Nat
  targets : List (List String)
deriving DecidableEq, Repr

/-- A raw signed delegation returned by the canister. -/
structure SignedDelegationRaw where
  delegation : DelegationRaw
  signature : Bytes
deriving DecidableEq, Repr

/-- AuthResponse from the delegation canister (source lines 1007-1019). -/
structure AuthResponse where
  kind : String
  authnMethod : String
  delegations : List SignedDelegationRaw
  userPublicKey : Bytes
deriving DecidableEq, Repr

/-- GetDelegationResult variant (source lines 1022-1024). -/
inductive GetDelegationResult where
  | ok (auth : AuthResponse)
  | err (e : String)
deriving DecidableEq, Repr

/-- A Delegation object as built by the source (targets resolved from the
opt encoding to an Option). -/
structure Delegation where
  pubkey : Bytes
  expiration : Nat
  targets : Option (List String)
deriving DecidableEq, Repr

/-- A delegation together with its signature. -/
structure SignedDelegation where
  delegation : Delegation
  signature : Bytes
deriving DecidableEq, Repr

/-- DelegationChain.fromDelegations output: the mapped delegations plus
the chain root public key. -/
structure DelegationChain where
  delegations : List SignedDelegation
  publicKey : Bytes
deriving DecidableEq, Repr

/-- DelegationIdentity.fromDelegation output: the ephemeral session key
pair together with the chain that vouches for it. -/
structure DelegationIdentity where
  sessionKey : KeyPair
  chain : DelegationChain
deriving DecidableEq, Repr

/-- AuthResult returned by authenticate (source lines 987-992; expiresAt
in epoch milliseconds). -/
structure AuthResult where
  identity : DelegationIdentity
  principal : String
  expiresAt : Nat
  isNewUser : Bool
deriving DecidableEq, Repr

/-- The mapping applied to each signed delegation when building the chain
(source lines 1587-1602): targets.length greater than zero picks the head,
otherwise undefined. -/
def mapSignedDelegation (sd : SignedDelegationRaw) : SignedDelegation :=
  { delegation :=
      { pubkey := sd.delegation.pubkey
        expiration := sd.delegation.expiration
        targets :=
          match sd.delegation.targets with
          | [] => none
          | t :: _ => some t }
    signature := sd.signature }

/-- Arguments of one prepareDelegationPassword call. -/
structure PrepareArgs where
  userId : String
  register : Bool
  origin : String
  sessionKey : Bytes
  expireIn : Nat
  targets : List (List String)
deriving DecidableEq, Repr

/-- Arguments of one getDelegation call. -/
structure GetDelegationArgs where
  provider : String
  origin : String
  sessionKey : Bytes
  expireAt : Nat
  targets : List (List String)
deriving DecidableEq, Repr

/-- Observable events of one run: canister calls, key derivation calls,
and invocations of the configured callbacks, in program order. -/
inductive Event where
  | argonCall (params : ArgonParams)
  | fromSeedCall (seed : Bytes)
  | prepareCall (args : PrepareArgs)
  | getDelegationCall (args : GetDelegationArgs)
  | onProgressEv (message : String) (step : Nat) (total : Nat)
  | onAuthEv (authenticated : Bool) (event : String) (reason : String)
  | onErrorEv (message : String)
  | idleStartEv
  | idleStopEv
deriving DecidableEq, Repr

/-- Oracle environment: results of all external and nondeterministic
operations consumed by one method call on the ICPasswordAuth instance,
plus the fixed parts of its configuration. -/
structure Env where
  naclLoaded : Bool
  argonLoaded : Bool
  argonHash : ArgonParams → Except String Bytes
  sha256 : Bytes → Bytes
  fromSeed : Bytes → KeyPair
  randomKeyPair : KeyPair
  agentCreate1 : Except String Unit
  agentCreate2 : Except String Unit
  origin : String
  prep : Except String PrepRes
  getDel : Except String GetDelegationResult
  storageSet : Except String Unit
  principalOf : DelegationIdentity → String
  stringifyChain : DelegationChain → String
  stringifySession : StoredSession → String
  parseSession : String → Option StoredSession
  parseChain : String → Option DelegationChain
  idleConfigured : Bool

/-- Mutable fields of the v2 ICPasswordAuth class, plus the value stored
under the fixed session storage key and the current Date.now() clock. -/
structure AuthState where
  currentIdentity : Option DelegationIdentity
  currentExpiresAt : Option Nat
  expirationTimer : Option Nat
  storageSlot : Option String
  now : Nat
deriving DecidableEq, Repr

/-- isAuthenticated: the current identity is not null (source lines 1376-1378). -/
def isAuthenticated (s : AuthState) : Bool := s.currentIdentity.isSome

/-- Result of a v2 method call: the new state, emitted events, and the
returned or thrown value. -/
structure AuthOut where
  state : AuthState
  trace : List Event
  result : Except String AuthResult
deriving Repr

/-- signOut (source lines 1355-1371): clear the identity and expiry,
remove the stored session, stop the idle manager if configured, clear the
expiration timer, and emit the signOut auth event. -/
def signOut (env : Env) (reason : String) (s : AuthState) : AuthState × List Event :=
  let s1 := { s with currentIdentity := none, currentExpiresAt := none,
                     storageSlot := none, expirationTimer := none }
  let evIdle := if env.idleConfigured then [Event.idleStopEv] else []
  (s1, evIdle ++ [Event.onAuthEv false "signOut" reason])

/-- setExpirationTimer (source lines 1259-1288): clear any pending timer;
if the expiry already passed, sign out with reason expired, otherwise arm
a timer clamped between 5 seconds and 12 hours from now. -/
def setExpirationTimer (env : Env) (s : AuthState) (expiresAt : Nat) : AuthState × List Event :=
  let s1 := { s with expirationTimer := none }
  if expiresAt ≤ s1.now then
    signOut env "expired" s1
  else
    let msUntilExpiration := expiresAt - s1.now
    let timeout := max 5000 (min msUntilExpiration 43200000)
    ({ s1 with expirationTimer := some (s1.now + timeout) }, [])

/-- Body of the expiration timer callback, run when the armed timer fires
(source lines 1279-1287): re-check the real expiry; sign out if it truly
passed, otherwise rearm for the stored expiry. -/
def fireExpirationTimer (env : Env) (s : AuthState) : AuthState × List Event :=
  let s1 := { s with expirationTimer := none }
  match s1.currentExpiresAt with
  | some e =>
      if e ≤ s1.now then signOut env "expired" s1
      else setExpirationTimer env s1 e
  | none => (s1, [])

/-- restoreSession v2 (source lines 1395-1452).  A falsy stored value
(null or the empty string) returns early; a failing JSON.parse of the
record or of the chain is caught and clears the key; an expired record is
cleared with an expired signOut event; otherwise a delegation identity is
built around a freshly generated key pair and installed. -/
def restoreSession (env : Env) (s : AuthState) : AuthState × List Event :=
  match s.storageSlot with
  | none => (s, [])
  | some sessionData =>
    if sessionData = "" then (s, [])
    else
      match env.parseSession sessionData with
      | none => ({ s with storageSlot := none }, [])
      | some session =>
        if session.expiresAt ≤ s.now then
          ({ s with storageSlot := none }, [Event.onAuthEv false "signOut" "expired"])
        else
          match env.parseChain session.delegationChain with
          | none => ({ s with storageSlot := none }, [])
          | some delegationChain =>
            let tempIdentity : DelegationIdentity :=
              { sessionKey := env.randomKeyPair, chain := delegationChain }
            let s1 := { s with currentIdentity := some tempIdentity,
                               currentExpiresAt := some session.expiresAt }
            let evIdle := if env.idleConfigured then [Event.idleStartEv] else []
            ((setExpirationTimer env s1 session.expiresAt).1,
             evIdle ++ (setExpirationTimer env s1 session.expiresAt).2 ++
               [Event.onAuthEv true "signIn" "restore"])

/-- authenticate v2 (source lines 1457-1637), with every awaited external
operation drawn from the environment.  State changes happen exactly where
the source performs them: the identity and expiry are installed before
the storage save, so a failing save leaves them installed. -/
def authenticate (env : Env) (username password : String) (register : Bool)
    (s : AuthState) : AuthOut :=
  if env.naclLoaded = false then
    { state := s, trace := [],
      result := .error "TweetNaCl library not loaded. Please include tweetnacl script." }
  else
    let usernameHash := hexEncode (env.sha256 (utf8 username))
    let params := argonParams username password
    let ev1 := [Event.onProgressEv "Hashing password..." 1 3, Event.argonCall params]
    match env.argonHash params with
    | .error e => { state := s, trace := ev1, result := .error e }
    | .ok seed =>
      let ev2 := ev1 ++ [Event.onProgressEv "Preparing login session..." 2 3,
                         Event.fromSeedCall seed]
      match env.agentCreate1 with
      | .error e => { state := s, trace := ev2, result := .error e }
      | .ok _ =>
        let derKey := derEncodePublicKey env.randomKeyPair.publicKey
        match env.agentCreate2 with
        | .error e => { state := s, trace := ev2, result := .error e }
        | .ok _ =>
          let ev3 := ev2 ++ [Event.prepareCall
            { userId := usernameHash, register := register, origin := env.origin,
              sessionKey := derKey, expireIn := expireInNanoseconds, targets := [] }]
          match env.prep with
          | .error e => { state := s, trace := ev3, result := .error e }
          | .ok (.err e) => { state := s, trace := ev3, result := .error e }
          | .ok (.ok pok) =>
            let ev4 := ev3 ++ [Event.onProgressEv "Requesting delegation..." 3 3,
              Event.getDelegationCall
                { provider := "password", origin := env.origin, sessionKey := derKey,
                  expireAt := pok.expireAt, targets := [] }]
            match env.getDel with
            | .error e => { state := s, trace := ev4, result := .error e }
            | .ok (.err e) => { state := s, trace := ev4, result := .error e }
            | .ok (.ok auth) =>
              if auth.delegations.length = 0 then
                { state := s, trace := ev4,
                  result := .error "No delegations returned from the canister" }
              else
                let chain : DelegationChain :=
                  { delegations := auth.delegations.map mapSignedDelegation
                    publicKey := auth.userPublicKey }
                let delegationIdentity : DelegationIdentity :=
                  { sessionKey := env.randomKeyPair, chain := chain }
                let expiresAt := pok.expireAt / 1000000
                let s1 := { s with currentIdentity := some delegationIdentity,
                                   currentExpiresAt := some expiresAt }
                let principal := env.principalOf delegationIdentity
                let stored := env.stringifySession
                  { delegationChain := env.stringifyChain chain,
                    expiresAt := expiresAt, principal := principal }
                match env.storageSet with
                | .error e => { state := s1, trace := ev4, result := .error e }
                | .ok _ =>
                  let s2 := { s1 with storageSlot := some stored }
                  let evIdle := if env.idleConfigured then [Event.idleStartEv] else []
                  { state := (setExpirationTimer env s2 expiresAt).1,
                    trace := ev4 ++ evIdle ++ (setExpirationTimer env s2 expiresAt).2,
                    result := .ok { identity := delegationIdentity, principal := principal,
                                    expiresAt := expiresAt, isNewUser := pok.isNew } }

/-- signIn (source lines 1314-1329): authenticate with register false; on
success emit the signIn auth event, on failure route the error to the
onError callback and rethrow it. -/
def signIn (env : Env) (u p : String) (s : AuthState) : AuthOut :=
  let out := authenticate env u p false s
  match out.result with
  | .ok _ => { out with trace := out.trace ++ [Event.onAuthEv true "signIn" "manual"] }
  | .error e => { out with trace := out.trace ++ [Event.onErrorEv e] }

/-- signUp (source lines 1293-1309): authenticate with register true; on
success emit the signUp auth event, on failure route the error to the
onError callback and rethrow it. -/
def signUp (env : Env) (u p : String) (s : AuthState) : AuthOut :=
  let out := authenticate env u p true s
  match out.result with
  | .ok _ => { out with trace := out.trace ++ [Event.onAuthEv true "signUp" "manual"] }
  | .error e => { out with trace := out.trace ++ [Event.onErrorEv e] }

/-- One observable step of an ICPasswordAuth instance: time passing, a
public method call, or the armed expiration timer firing once due. -/
inductive Step : AuthState → AuthState → Prop where
  | tick (s : AuthState) (dt : Nat) : Step s { s with now := s.now + dt }
  | signInStep (env : Env) (u p : String) (s : AuthState) : Step s (signIn env u p s).state
  | signUpStep (env : Env) (u p : String) (s : AuthState) : Step s (signUp env u p s).state
  | signOutStep (env : Env) (reason : String) (s : AuthState) :
      Step s (signOut env reason s).1
  | fireStep (env : Env) (s : AuthState) (t : Nat)
      (harmed : s.expirationTimer = some t) (hdue : t ≤ s.now) :
      Step s (fireExpirationTimer env s).1

/-- Initial fields of a freshly constructed instance, before the
constructor invokes restoreSession on whatever the storage holds. -/
def initialFields (slot : Option String) (now0 : Nat) : AuthState :=
  { currentIdentity := none, currentExpiresAt := none, expirationTimer := none,
    storageSlot := slot, now := now0 }

/-- Reachable states of one ICPasswordAuth instance: the constructor runs
restoreSession on the initial fields, then any sequence of steps. -/
inductive Reachable : AuthState → Prop where
  | init (env : Env) (slot : Option String) (now0 : Nat) :
      Reachable (restoreSession env (initialFields slot now0)).1
  | step {s s2 : AuthState} : Reachable s → Step s s2 → Reachable s2

namespace V1

/-- Mutable fields of the first evolution of the ICPasswordAuth class:
it has no currentExpiresAt field and no expiration timer (source lines
321-327 of the first file). -/
structure State where
  currentIdentity : Option DelegationIdentity
  storageSlot : Option String
  now : Nat
deriving DecidableEq, Repr

/-- Result of a v1 method call. -/
structure Out where
  state : State
  trace : List Event
  result : Except String AuthResult
deriving Repr

/-- authenticate of the first evolution (source lines 458-629): it also
checks window.argon2, has no progress callbacks, prefixes canister err
strings, and installs only currentIdentity on success. -/
def authenticate (env : Env) (username password : String) (register : Bool)
    (s : State) : Out :=
  if env.argonLoaded = false then
    { state := s, trace := [],
      result := .error "Argon2 library not loaded. Please include argon2-browser script." }
  else if env.naclLoaded = false then
    { state := s, trace := [],
      result := .error "TweetNaCl library not loaded. Please include tweetnacl script." }
  else
    let usernameHash := hexEncode (env.sha256 (utf8 username))
    let params := argonParams username password
    let ev1 := [Event.argonCall params]
    match env.argonHash params with
    | .error e => { state := s, trace := ev1, result := .error e }
    | .ok seed =>
      let ev2 := ev1 ++ [Event.fromSeedCall seed]
      match env.agentCreate1 with
      | .error e => { state := s, trace := ev2, result := .error e }
      | .ok _ =>
        let derKey := derEncodePublicKey env.randomKeyPair.publicKey
        match env.agentCreate2 with
        | .error e => { state := s, trace := ev2, result := .error e }
        | .ok _ =>
          let ev3 := ev2 ++ [Event.prepareCall
            { userId := usernameHash, register := register, origin := env.origin,
              sessionKey := derKey, expireIn := expireInNanoseconds, targets := [] }]
          match env.prep with
          | .error e => { state := s, trace := ev3, result := .error e }
          | .ok (.err e) =>
            { state := s, trace := ev3,
              result := .error ("Delegation preparation failed: " ++ e) }
          | .ok (.ok pok) =>
            let ev4 := ev3 ++ [Event.getDelegationCall
              { provider := "password", origin := env.origin, sessionKey := derKey,
                expireAt := pok.expireAt, targets := [] }]
            match env.getDel with
            | .error e => { state := s, trace := ev4, result := .error e }
            | .ok (.err e) =>
              { state := s, trace := ev4,
                result := .error ("Get delegation failed: " ++ e) }
            | .ok (.ok auth) =>
              if auth.delegations.length = 0 then
                { state := s, trace := ev4,
                  result := .error "No delegations returned from the canister" }
              else
                let chain : DelegationChain :=
                  { delegations := auth.delegations.map mapSignedDelegation
                    publicKey := auth.userPublicKey }
                let delegationIdentity : DelegationIdentity :=
                  { sessionKey := env.randomKeyPair, chain := chain }
                let s1 := { s with currentIdentity := some delegationIdentity }
                let principal := env.principalOf delegationIdentity
                let expiresAt := pok.expireAt / 1000000
                let stored := env.stringifySession
                  { delegationChain := env.stringifyChain chain,
                    expiresAt := expiresAt, principal := principal }
                match env.storageSet with
                | .error e => { state := s1, trace := ev4, result := .error e }
                | .ok _ =>
                  let s2 := { s1 with storageSlot := some stored }
                  let evIdle := if env.idleConfigured then [Event.idleStartEv] else []
                  { state := s2, trace := ev4 ++ evIdle,
                    result := .ok { identity := delegationIdentity, principal := principal,
                                    expiresAt := expiresAt, isNewUser := pok.isNew } }

/-- restoreSession of the first evolution (source lines 425-453): it
parses the stored record and chain and starts the idle manager, but never
installs an identity (the source comments that the ephemeral identity
cannot be restored). -/
def restoreSession (env : Env) (s : State) : State × List Event :=
  match s.storageSlot with
  | none => (s, [])
  | some sessionData =>
    if sessionData = "" then (s, [])
    else
      match env.parseSession sessionData with
      | none => ({ s with storageSlot := none }, [])
      | some session =>
        if session.expiresAt ≤ s.now then
          ({ s with storageSlot := none }, [])
        else
          match env.parseChain session.delegationChain with
          | none => ({ s with storageSlot := none }, [])
          | some _delegationChain =>
            (s, if env.idleConfigured then [Event.idleStartEv] else [])

/-- isAuthenticated of the first evolution (source lines 406-408). -/
def isAuthenticated (s : State) : Bool := s.currentIdentity.isSome

end V1

/-- One entry of the window listener set: addEventListener and
removeEventListener match on the (type, callback, capture) triple, with
callbacks compared by function object identity, modeled as an allocation
number. -/
structure ListenerEntry where
  eventType : String
  callback : Nat
  capture : Bool
deriving DecidableEq, Repr

/-- The browser window: its registered listener set, an allocator for
fresh function objects (each evaluation of resetTimer.bind creates a new
one), and an allocator for timer handles. -/
structure WindowState where
  listeners : List ListenerEntry
  nextFn : Nat
  timerCtr : Nat
deriving DecidableEq, Repr

/-- window.addEventListener: adding an already-registered (type,
callback, capture) triple is a no-op, otherwise the entry is appended. -/
def addEventListener (w : WindowState) (e : ListenerEntry) : WindowState :=
  if e ∈ w.listeners then w else { w with listeners := w.listeners ++ [e] }

/-- window.removeEventListener: removes the matching (type, callback,
capture) triple if present; a callback never registered matches nothing. -/
def removeEventListener (w : WindowState) (e : ListenerEntry) : WindowState :=
  { w with listeners := w.listeners.filter (fun x => x ≠ e) }

/-- Evaluation of this.resetTimer.bind(this): allocates a fresh function
object, distinct from every previously created one. -/
def bindResetTimer (w : WindowState) : Nat × WindowState :=
  (w.nextFn, { w with nextFn := w.nextFn + 1 })

/-- IdleManagerConfig (source lines 923-936); the onIdle callback is not
part of the listener bookkeeping.  idleTimeout is a JS number. -/
structure IdleManagerConfig where
  idleTimeout : Option Int
  captureScroll : Bool
deriving DecidableEq, Repr

/-- Fields of an IdleManager instance. -/
structure IdleManagerState where
  idleTimeout : Int
  events : List String
  idleTimer : Option Nat
deriving DecidableEq, Repr

namespace IdleManager

/-- IdleManager constructor (source lines 1135-1143):
config.idleTimeout falsy (absent or zero) falls back to the ten-minute
default, and scroll is appended to the event list when captureScroll. -/
def new (config : IdleManagerConfig) : IdleManagerState :=
  { idleTimeout :=
      match config.idleTimeout with
      | none => 10 * 60 * 1000
      | some t => if t = 0 then 10 * 60 * 1000 else t
    events := ["mousedown", "mousemove", "keypress", "touchstart"] ++
      (if config.captureScroll then ["scroll"] else [])
    idleTimer := none }

/-- resetTimer (source lines 1176-1184): clears any pending idle timer
and arms a fresh one. -/
def resetTimer (m : IdleManagerState) (w : WindowState) : IdleManagerState × WindowState :=
  ({ m with idleTimer := some w.timerCtr }, { w with timerCtr := w.timerCtr + 1 })

/-- start (source lines 1148-1155): reset the timer, then register a
freshly bound resetTimer for each configured event with capture true. -/
def start (m : IdleManagerState) (w : WindowState) : IdleManagerState × WindowState :=
  let (m1, w1) := resetTimer m w
  m1.events.foldl
    (fun (p : IdleManagerState × WindowState) ev =>
      let (fn, w2) := bindResetTimer p.2
      (p.1, addEventListener w2 { eventType := ev, callback := fn, capture := true }))
    (m1, w1)

/-- stop (source lines 1160-1171): clear the idle timer, then call
removeEventListener for each configured event with another freshly bound
resetTimer. -/
def stop (m : IdleManagerState) (w : WindowState) : IdleManagerState × WindowState :=
  let m1 := { m with idleTimer := none }
  m1.events.foldl
    (fun (p : IdleManagerState × WindowState) ev =>
      let (fn, w2) := bindResetTimer p.2
      (p.1, removeEventListener w2 { eventType := ev, callback := fn, capture := true }))
    (m1, w)

end IdleManager

/-- An IdleManager built from the default configuration. -/
def idleM0 : IdleManagerState := IdleManager.new { idleTimeout := none, captureScroll := false }

/-- A fresh browser window with no registered listeners. -/
def window0 : WindowState := { listeners := [], nextFn := 0, timerCtr := 0 }

/-- Claim C3 (code bug): stop() does not remove the listeners that
start() added.  Because each call evaluates this.resetTimer.bind(this),
start registers four freshly created function objects and stop passes
four different freshly created ones to removeEventListener, which
therefore matches nothing.  On a fresh window, start();stop() leaves the
four listeners added by start registered, so the window listener set is
not restored and the pair leaks listeners, contradicting the claim. -/
theorem spec_C3_bug :
    window0.listeners = [] ∧
    (IdleManager.start idleM0 window0).2.listeners.length = 4 ∧
    (IdleManager.stop (IdleManager.start idleM0 window0).1
        (IdleManager.start idleM0 window0).2).2.listeners
      = (IdleManager.start idleM0 window0).2.listeners ∧
    (IdleManager.stop (IdleManager.start idleM0 window0).1
        (IdleManager.start idleM0 window0).2).2.listeners ≠ window0.listeners := by
  refine ⟨rfl, rfl, rfl, ?_⟩
  decide

/-- Claim C10: an omitted or zero idleTimeout yields the 10-minute
default (600000 ms), and no configuration can make the stored idle
timeout zero, since every falsy value is replaced by the default. -/
theorem spec_C10 :
    (IdleManager.new { idleTimeout := none, captureScroll := false }).idleTimeout = 600000 ∧
    (IdleManager.new { idleTimeout := some 0, captureScroll := false }).idleTimeout = 600000 ∧
    ∀ config : IdleManagerConfig, (IdleManager.new config).idleTimeout ≠ 0 := by
  refine ⟨rfl, rfl, ?_⟩
  intro config
  cases h : config.idleTimeout with
  | none => simp [IdleManager.new, h]
  | some t =>
    by_cases ht : t = 0 <;> simp [IdleManager.new, h, ht]

/-- Claim C10 witness: the theorem applied at a nonzero configured
timeout. -/
theorem spec_C10_witness :
    (IdleManager.new { idleTimeout := some 5, captureScroll := true }).idleTimeout ≠ 0 :=
  spec_C10.2.2 { idleTimeout := some 5, captureScroll := true }

/-- A well-formed one-element delegation response used by concrete runs. -/
def okAuthResponse : AuthResponse :=
  { kind := "authorize-client-success"
    authnMethod := "password"
    delegations := [{ delegation := { pubkey := List.replicate 32 4, expiration := 1000000000,
                                      targets := [] },
                      signature := List.replicate 64 9 }]
    userPublicKey := List.replicate 32 8 }

/-- An environment in which every external operation succeeds; the
prepared delegation expires at 1000000000 ns, that is 1000 ms. -/
def envOk : Env :=
  { naclLoaded := true
    argonLoaded := true
    argonHash := fun _ => .ok (List.replicate 32 1)
    sha256 := fun _ => List.replicate 32 2
    fromSeed := fun _ => { publicKey := List.replicate 32 3, secretKey := List.replicate 64 3 }
    randomKeyPair := { publicKey := List.replicate 32 4, secretKey := List.replicate 64 4 }
    agentCreate1 := .ok ()
    agentCreate2 := .ok ()
    origin := "https://example.com"
    prep := .ok (.ok { expireAt := 1000000000, isNew := false, pubKey := List.replicate 32 7 })
    getDel := .ok (.ok okAuthResponse)
    storageSet := .ok ()
    principalOf := fun _ => "aaaaa-aa"
    stringifyChain := fun _ => "chainjson"
    stringifySession := fun _ => "sessionjson"
    parseSession := fun _ => none
    parseChain := fun _ => none
    idleConfigured := false }

/-- Linking invariant of the v2 class: an identity is held exactly when a
session expiry is held. -/
def StateInv (s : AuthState) : Prop :=
  s.currentIdentity.isSome = s.currentExpiresAt.isSome

theorem signOut_inv (env : Env) (reason : String) (s : AuthState) :
    StateInv (signOut env reason s).1 := by
  simp [signOut, StateInv]

theorem setExpirationTimer_inv (env : Env) (s : AuthState) (x : Nat)
    (h : StateInv s) : StateInv (setExpirationTimer env s x).1 := by
  simp only [setExpirationTimer]
  split
  · exact signOut_inv env "expired" _
  · simpa [StateInv] using h

theorem fireExpirationTimer_inv (env : Env) (s : AuthState)
    (h : StateInv s) : StateInv (fireExpirationTimer env s).1 := by
  simp only [fireExpirationTimer]
  split
  · split
    · exact signOut_inv env "expired" _
    · exact setExpirationTimer_inv env _ _ (by simpa [StateInv] using h)
  · simpa [StateInv] using h

theorem restoreSession_inv (env : Env) (s : AuthState)
    (h : StateInv s) : StateInv (restoreSession env s).1 := by
  simp only [restoreSession]
  split
  · exact h
  · split
    · exact h
    · split
      · simpa [StateInv] using h
      · split
        · simpa [StateInv] using h
        · split
          · simpa [StateInv] using h
          · exact setExpirationTimer_inv env _ _ (by simp [StateInv])

theorem authenticate_inv (env : Env) (u p : String) (r : Bool) (s : AuthState)
    (h : StateInv s) : StateInv (authenticate env u p r s).state := by
  simp only [authenticate]
  repeat' split
  all_goals
    first
      | exact h
      | exact setExpirationTimer_inv env _ _ (by simp [StateInv])
      | simp [StateInv]

theorem signIn_state (env : Env) (u p : String) (s : AuthState) :
    (signIn env u p s).state = (authenticate env u p false s).state := by
  simp only [signIn]
  split <;> rfl

theorem signUp_state (env : Env) (u p : String) (s : AuthState) :
    (signUp env u p s).state = (authenticate env u p true s).state := by
  simp only [signUp]
  split <;> rfl

theorem reachable_inv (s : AuthState) (h : Reachable s) : StateInv s := by
  induction h with
  | init env slot now0 => exact restoreSession_inv env _ (by simp [StateInv, initialFields])
  | step _ hstep ih =>
    cases hstep with
    | tick => simpa [StateInv] using ih
    | signInStep env u p => rw [signIn_state]; exact authenticate_inv env u p false _ ih
    | signUpStep env u p => rw [signUp_state]; exact authenticate_inv env u p true _ ih
    | signOutStep env reason => exact signOut_inv env reason _
    | fireStep env => exact fireExpirationTimer_inv env _ ih

/-- The state of the constructor run used as a concrete reachable state. -/
def cexC1s0 : AuthState := (restoreSession envOk (initialFields none 0)).1

/-- The state after a successful signIn at time 0 whose delegation
expires at 1000 ms: the expiration check is clamped to fire at 5000 ms. -/
def cexC1s1 : AuthState := (signIn envOk "alice" "pw" cexC1s0).state

/-- The same instance 3000 ms later: the session expiry (1000 ms) has
passed but the clamped timer (armed for 5000 ms) has not yet fired. -/
def cexC1state : AuthState := { cexC1s1 with now := cexC1s1.now + 3000 }

theorem cexC1_reachable : Reachable cexC1state :=
  Reachable.step
    (Reachable.step (Reachable.init envOk none 0)
      (Step.signInStep envOk "alice" "pw" cexC1s0))
    (Step.tick cexC1s1 3000)

/-- Claim C1, as stated, is false: isAuthenticated() is not equivalent to
holding a non-expired session.  In the reachable state cexC1state the
stored expiry (1000 ms) has passed (now = 3000 ms), yet isAuthenticated()
still returns true, because the expiration check is a timer clamped to
fire no earlier than 5 seconds after arming and it has not fired yet. -/
theorem spec_C1_counterexample :
    ¬ (∀ s : AuthState, Reachable s →
        (isAuthenticated s = true ↔ ∃ e, s.currentExpiresAt = some e ∧ s.now < e)) := by
  intro hclaim
  have h1 : isAuthenticated cexC1state = true := by decide
  rcases (hclaim cexC1state cexC1_reachable).mp h1 with ⟨e, he, hlt⟩
  have h2 : cexC1state.currentExpiresAt = some 1000 := by decide
  rw [h2] at he
  cases he
  have h3 : cexC1state.now = 3000 := by decide
  rw [h3] at hlt
  exact absurd hlt (by decide)

/-- Claim C1 amended: in every reachable state, isAuthenticated() is true
iff a Session (possibly already expired) is held in memory; an identity
is held exactly when an expiry is held; and whenever the expiration timer
callback runs at a moment at or after the stored expiry, the instance
signs out, so isAuthenticated() becomes false.  Between the expiry and
the firing of the clamped timer, isAuthenticated() can report true for an
expired session. -/
theorem spec_C1_amended : ∀ s : AuthState, Reachable s →
    ((isAuthenticated s = true ↔ s.currentIdentity ≠ none) ∧
     s.currentIdentity.isSome = s.currentExpiresAt.isSome ∧
     (∀ (env : Env) (e : Nat), s.currentExpiresAt = some e → e ≤ s.now →
        isAuthenticated (fireExpirationTimer env s).1 = false)) := by
  intro s hreach
  refine ⟨by simp [isAuthenticated, Option.isSome_iff_ne_none], reachable_inv s hreach, ?_⟩
  intro env e he hd
  simp [fireExpirationTimer, signOut, isAuthenticated, he, hd]

/-- Claim C1 amended, witness: the amended theorem applied at the
concrete reachable state cexC1state, whose timer callback signs out. -/
theorem spec_C1_amended_witness :
    isAuthenticated (fireExpirationTimer envOk cexC1state).1 = false :=
  (spec_C1_amended cexC1state cexC1_reachable).2.2 envOk 1000 (by decide) (by decide)

theorem authenticate_error_frame (env : Env) (u p : String) (r : Bool)
    (s : AuthState) (e : String) (hst : env.storageSet = Except.ok ())
    (h : (authenticate env u p r s).result = .error e) :
    (authenticate env u p r s).state = s := by
  revert h
  simp only [authenticate]
  repeat' split
  all_goals intro h
  all_goals simp_all

theorem signIn_result (env : Env) (u p : String) (s : AuthState) :
    (signIn env u p s).result = (authenticate env u p false s).result := by
  simp only [signIn]
  split <;> rfl

theorem signUp_result (env : Env) (u p : String) (s : AuthState) :
    (signUp env u p s).result = (authenticate env u p true s).result := by
  simp only [signUp]
  split <;> rfl

theorem signIn_error_trace (env : Env) (u p : String) (s : AuthState) (e : String)
    (h : (authenticate env u p false s).result = .error e) :
    Event.onErrorEv e ∈ (signIn env u p s).trace := by
  simp only [signIn]
  split
  · simp_all
  · simp_all

theorem signUp_error_trace (env : Env) (u p : String) (s : AuthState) (e : String)
    (h : (authenticate env u p true s).result = .error e) :
    Event.onErrorEv e ∈ (signUp env u p s).trace := by
  simp only [signUp]
  split
  · simp_all
  · simp_all

/-- An environment in which everything succeeds except the storage save,
which throws. -/
def envC2 : Env := { envOk with storageSet := .error "QuotaExceededError" }

/-- Claim C2, as stated, is false: when the storage save throws, signIn
rejects with the error and routes it to onError, but the identity was
installed before the save and is not rolled back, so the instance reports
authenticated.  The concrete run: every step succeeds except storage.set. -/
theorem spec_C2_counterexample :
    ¬ (∀ (env : Env) (u p : String) (s : AuthState) (e : String),
        s.currentIdentity = none →
        (signIn env u p s).result = .error e →
        (Event.onErrorEv e ∈ (signIn env u p s).trace ∧
         isAuthenticated (signIn env u p s).state = false ∧
         (signIn env u p s).state.storageSlot = s.storageSlot)) := by
  intro h
  have hc := h envC2 "alice" "pw" (initialFields none 0) "QuotaExceededError" rfl rfl
  exact absurd hc.2.1 (by decide)

/-- Claim C2 amended: provided the storage save itself does not throw,
every failure of signIn or signUp from an unauthenticated state rejects
with the error, routes the same error to the onError callback, and leaves
the instance unauthenticated with the stored value unchanged.  A failing
storage save still rejects and calls onError, but leaves the freshly
installed identity in memory. -/
theorem spec_C2_amended : ∀ (env : Env) (u p : String) (s : AuthState) (e : String),
    env.storageSet = Except.ok () → s.currentIdentity = none →
    ((signIn env u p s).result = .error e →
       isAuthenticated (signIn env u p s).state = false ∧
       (signIn env u p s).state.storageSlot = s.storageSlot ∧
       Event.onErrorEv e ∈ (signIn env u p s).trace) ∧
    ((signUp env u p s).result = .error e →
       isAuthenticated (signUp env u p s).state = false ∧
       (signUp env u p s).state.storageSlot = s.storageSlot ∧
       Event.onErrorEv e ∈ (signUp env u p s).trace) := by
  intro env u p s e hst hid
  constructor
  · intro hr
    rw [signIn_result] at hr
    have hframe := authenticate_error_frame env u p false s e hst hr
    rw [signIn_state, hframe]
    exact ⟨by simp [isAuthenticated, hid], rfl, signIn_error_trace env u p s e hr⟩
  · intro hr
    rw [signUp_result] at hr
    have hframe := authenticate_error_frame env u p true s e hst hr
    rw [signUp_state, hframe]
    exact ⟨by simp [isAuthenticated, hid], rfl, signUp_error_trace env u p s e hr⟩

/-- An environment in which the canister rejects the prepare step. -/
def envC2w : Env := { envOk with prep := .ok (.err "User not found") }

/-- Claim C2 amended, witness: a failing prepare step from a fresh
instance leaves it unauthenticated and reaches the onError callback. -/
theorem spec_C2_amended_witness :
    isAuthenticated (signIn envC2w "alice" "pw" (initialFields none 0)).state = false ∧
    Event.onErrorEv "User not found" ∈ (signIn envC2w "alice" "pw" (initialFields none 0)).trace :=
  have h := (spec_C2_amended envC2w "alice" "pw" (initialFields none 0) "User not found"
    rfl rfl).1 rfl
  ⟨h.1, h.2.2⟩

/-- Claim C6, as stated, is false at the empty string: an empty stored
value is not valid JSON, yet the load path treats every falsy string as
no data and returns before the parse, leaving the garbage key in place
(though still unauthenticated and without throwing). -/
theorem spec_C6_counterexample :
    ¬ (∀ (env : Env) (s : AuthState) (data : String),
        s.storageSlot = some data →
        env.parseSession data = none →
        s.currentIdentity = none →
        ((restoreSession env s).1.storageSlot = none ∧
         isAuthenticated (restoreSession env s).1 = false)) := by
  intro h
  have hc := h envOk (initialFields (some "") 0) "" rfl rfl rfl
  exact absurd hc.1 (by decide)

/-- Claim C6 amended: for every non-empty stored value that is malformed
(the record fails to parse, or it parses unexpired but its chain fails to
parse), loading clears the storage key, leaves the instance
unauthenticated, and emits no events; the failure is swallowed by the
catch, so nothing is thrown.  The empty string is the one exception: it
is treated as absent data and left in place, still without throwing and
still unauthenticated. -/
theorem spec_C6_amended : ∀ (env : Env) (s : AuthState) (data : String),
    s.storageSlot = some data → data ≠ "" → s.currentIdentity = none →
    (env.parseSession data = none ∨
     (∃ sess, env.parseSession data = some sess ∧ s.now < sess.expiresAt ∧
        env.parseChain sess.delegationChain = none)) →
    ((restoreSession env s).1.storageSlot = none ∧
     isAuthenticated (restoreSession env s).1 = false ∧
     (restoreSession env s).2 = []) := by
  intro env s data hslot hne hid hmal
  rcases hmal with hp | ⟨sess, hp, hexp, hc⟩
  · simp [restoreSession, hslot, hne, hp, isAuthenticated, hid]
  · have hnexp : ¬ (sess.expiresAt ≤ s.now) := by omega
    simp [restoreSession, hslot, hne, hp, hc, hnexp, isAuthenticated, hid]

/-- Claim C6 amended, witness: non-JSON garbage under the key is cleared
and the instance stays unauthenticated. -/
theorem spec_C6_amended_witness :
    (restoreSession envOk (initialFields (some "garbage") 0)).1.storageSlot = none ∧
    isAuthenticated (restoreSession envOk (initialFields (some "garbage") 0)).1 = false ∧
    (restoreSession envOk (initialFields (some "garbage") 0)).2 = [] :=
  spec_C6_amended envOk (initialFields (some "garbage") 0) "garbage" rfl (by decide) rfl
    (Or.inl rfl)

/-- A delegation chain as recovered from a persisted record. -/
def chainC5 : DelegationChain := { delegations := [], publicKey := List.replicate 32 8 }

/-- A well-formed, non-expired persisted session record. -/
def sessC5 : StoredSession :=
  { delegationChain := "chainjson", expiresAt := 99000, principal := "aaaaa-aa" }

/-- An environment whose parse oracles successfully recover sessC5 and
chainC5. -/
def envC5 : Env :=
  { envOk with parseSession := fun _ => some sessC5, parseChain := fun _ => some chainC5 }

/-- Claim C5, as stated, is false for the first evolution of the file:
its restoreSession parses the record and the chain but never constructs
or installs an identity (the source comments that the ephemeral identity
cannot be restored), so after restoring a well-formed, non-expired
session, isAuthenticated() is still false there. -/
theorem spec_C5_counterexample :
    ¬ (∀ (env : Env) (s : V1.State) (data : String) (sess : StoredSession)
        (chain : DelegationChain),
        s.storageSlot = some data → data ≠ "" →
        env.parseSession data = some sess → s.now < sess.expiresAt →
        env.parseChain sess.delegationChain = some chain →
        V1.isAuthenticated (V1.restoreSession env s).1 = true) := by
  intro h
  have hc := h envC5 { currentIdentity := none, storageSlot := some "stored", now := 0 }
      "stored" sessC5 chainC5 rfl (by decide) rfl (by decide) rfl
  exact absurd hc (by decide)

/-- Claim C5 amended: in the second evolution, loading a well-formed,
non-expired persisted record installs a DelegationIdentity built from the
freshly generated random key pair and the persisted chain, records the
persisted expiry, and makes isAuthenticated() true.  In the first
evolution, restore parses the data but installs no identity, so
isAuthenticated() stays false there. -/
theorem spec_C5_amended : ∀ (env : Env) (s : AuthState) (data : String)
    (sess : StoredSession) (chain : DelegationChain),
    s.storageSlot = some data → data ≠ "" →
    env.parseSession data = some sess → s.now < sess.expiresAt →
    env.parseChain sess.delegationChain = some chain →
    ((restoreSession env s).1.currentIdentity =
       some { sessionKey := env.randomKeyPair, chain := chain } ∧
     isAuthenticated (restoreSession env s).1 = true ∧
     (restoreSession env s).1.currentExpiresAt = some sess.expiresAt ∧
     (V1.restoreSession env ⟨none, some data, s.now⟩).1.currentIdentity = none) := by
  intro env s data sess chain hslot hne hp hexp hc
  have hnexp : ¬ (sess.expiresAt ≤ s.now) := by omega
  refine ⟨?_, ?_, ?_, ?_⟩
  · simp [restoreSession, hslot, hne, hp, hc, hnexp, setExpirationTimer]
  · simp [restoreSession, hslot, hne, hp, hc, hnexp, setExpirationTimer, isAuthenticated]
  · simp [restoreSession, hslot, hne, hp, hc, hnexp, setExpirationTimer]
  · simp [V1.restoreSession, hne, hp, hc, hnexp]

/-- Claim C5 amended, witness: restoring the concrete record sessC5 on a
fresh v2 instance reports authenticated. -/
theorem spec_C5_amended_witness :
    isAuthenticated (restoreSession envC5 (initialFields (some "stored") 0)).1 = true :=
  (spec_C5_amended envC5 (initialFields (some "stored") 0) "stored" sessC5 chainC5
    rfl (by decide) rfl (by decide) rfl).2.1

/-- An environment in which the canister answers prepare with an err
string. -/
def envC4 : Env := { envOk with prep := .ok (.err "oops") }

/-- A fresh v1 instance. -/
def v1s0 : V1.State := { currentIdentity := none, storageSlot := none, now := 0 }

/-- The prepare call arguments produced by envC4 for user alice. -/
def paC4 : PrepareArgs :=
  { userId := hexEncode (List.replicate 32 2), register := false,
    origin := "https://example.com",
    sessionKey := derEncodePublicKey (List.replicate 32 4),
    expireIn := expireInNanoseconds, targets := [] }

/-- Claim C4, as stated, is false for the first evolution of the file: an
err string from prepareDelegationPassword is surfaced there with the
message prefixed by a description, not verbatim.  Concretely, the err
string oops rejects v1 authenticate with the message
Delegation preparation failed: oops. -/
theorem spec_C4_counterexample :
    ¬ (∀ (env : Env) (u p : String) (r : Bool) (sv : V1.State) (e : String)
        (a : PrepareArgs),
        Event.prepareCall a ∈ (V1.authenticate env u p r sv).trace →
        env.prep = .ok (.err e) →
        (V1.authenticate env u p r sv).result = .error e) := by
  intro h
  have hc := h envC4 "alice" "pw" false v1s0 "oops" paC4 (by decide) rfl
  have hval : (V1.authenticate envC4 "alice" "pw" false v1s0).result
      = .error "Delegation preparation failed: oops" := rfl
  rw [hval] at hc
  simp only [Except.error.injEq] at hc
  exact absurd hc (by decide)

/-- Claim C4 amended: in the second evolution, an err string from either
canister call rejects the attempt with exactly that string as message;
in the first evolution the same string is prefixed with
Delegation preparation failed: or Get delegation failed: respectively.
The hypotheses state that the attempt reaches the canister calls. -/
theorem spec_C4_amended : ∀ (env : Env) (u p : String) (r : Bool) (s : AuthState)
    (sv : V1.State) (e : String),
    env.naclLoaded = true → env.argonLoaded = true →
    (∃ seed, env.argonHash (argonParams u p) = .ok seed) →
    env.agentCreate1 = Except.ok () → env.agentCreate2 = Except.ok () →
    ((env.prep = .ok (.err e) →
        (authenticate env u p r s).result = .error e ∧
        (V1.authenticate env u p r sv).result
          = .error ("Delegation preparation failed: " ++ e)) ∧
     (∀ pok, env.prep = .ok (.ok pok) → env.getDel = .ok (.err e) →
        (authenticate env u p r s).result = .error e ∧
        (V1.authenticate env u p r sv).result
          = .error ("Get delegation failed: " ++ e))) := by
  intro env u p r s sv e hn ha hseed h1 h2
  rcases hseed with ⟨seed, hseed⟩
  constructor
  · intro hp
    constructor
    · simp [authenticate, hn, hseed, h1, h2, hp]
    · simp [V1.authenticate, hn, ha, hseed, h1, h2, hp]
  · intro pok hp hg
    constructor
    · simp [authenticate, hn, hseed, h1, h2, hp, hg]
    · simp [V1.authenticate, hn, ha, hseed, h1, h2, hp, hg]

/-- Claim C4 amended, witness: the concrete err string oops from prepare
rejects v2 authenticate with exactly oops and v1 with the prefixed
message. -/
theorem spec_C4_amended_witness :
    (authenticate envC4 "alice" "pw" false (initialFields none 0)).result = .error "oops" ∧
    (V1.authenticate envC4 "alice" "pw" false v1s0).result
      = .error ("Delegation preparation failed: " ++ "oops") :=
  (spec_C4_amended envC4 "alice" "pw" false (initialFields none 0) v1s0 "oops"
    rfl rfl ⟨List.replicate 32 1, rfl⟩ rfl rfl).1 rfl

theorem setExpirationTimer_trace_sub (env : Env) (s : AuthState) (x : Nat) :
    ∀ ev ∈ (setExpirationTimer env s x).2,
      ev = Event.idleStopEv ∨ ev = Event.onAuthEv false "signOut" "expired" := by
  simp only [setExpirationTimer, signOut]
  split
  · split <;> simp
  · simp

theorem argonCall_notin_setTimer (env : Env) (s : AuthState) (x : Nat)
    (prms : ArgonParams) : Event.argonCall prms ∉ (setExpirationTimer env s x).2 := by
  intro hmem
  rcases setExpirationTimer_trace_sub env s x _ hmem with h | h <;> exact Event.noConfusion h

theorem fromSeedCall_notin_setTimer (env : Env) (s : AuthState) (x : Nat)
    (sd : Bytes) : Event.fromSeedCall sd ∉ (setExpirationTimer env s x).2 := by
  intro hmem
  rcases setExpirationTimer_trace_sub env s x _ hmem with h | h <;> exact Event.noConfusion h

theorem prepareCall_notin_setTimer (env : Env) (s : AuthState) (x : Nat)
    (a : PrepareArgs) : Event.prepareCall a ∉ (setExpirationTimer env s x).2 := by
  intro hmem
  rcases setExpirationTimer_trace_sub env s x _ hmem with h | h <;> exact Event.noConfusion h

theorem getDelegationCall_notin_setTimer (env : Env) (s : AuthState) (x : Nat)
    (a : GetDelegationArgs) :
    Event.getDelegationCall a ∉ (setExpirationTimer env s x).2 := by
  intro hmem
  rcases setExpirationTimer_trace_sub env s x _ hmem with h | h <;> exact Event.noConfusion h

theorem argonCall_unique (env : Env) (u p : String) (r : Bool) (s : AuthState) :
    ∀ prms, Event.argonCall prms ∈ (authenticate env u p r s).trace →
      prms = argonParams u p := by
  simp only [authenticate]
  repeat' split
  all_goals simp_all [argonCall_notin_setTimer]

theorem argonCall_mem (env : Env) (u p : String) (r : Bool) (s : AuthState)
    (hn : env.naclLoaded = true) :
    Event.argonCall (argonParams u p) ∈ (authenticate env u p r s).trace := by
  simp only [authenticate, hn]
  repeat' split
  all_goals simp_all

theorem fromSeedCall_val (env : Env) (u p : String) (r : Bool) (s : AuthState) :
    ∀ sd, Event.fromSeedCall sd ∈ (authenticate env u p r s).trace →
      env.argonHash (argonParams u p) = .ok sd := by
  simp only [authenticate]
  repeat' split
  all_goals simp_all [fromSeedCall_notin_setTimer]

/-- Claim C8: every argon2 invocation made by authenticate carries
exactly the fixed parameters (Argon2id, time 3, memory cost 65536 KiB,
hash length 32, parallelism 1) with the password bytes and the salt
icpasswordlogin concatenated with the raw username; the call is made
whenever the attempt starts (nacl loaded); and the seed handed to the
key derivation is exactly the value the argon2 oracle returns for those
parameters, so the seed is a deterministic function of the
(username, password) pair given the argon2 function. -/
theorem spec_C8 : ∀ (env : Env) (u p : String) (r : Bool) (s : AuthState),
    (∀ prms, Event.argonCall prms ∈ (authenticate env u p r s).trace →
       prms = argonParams u p) ∧
    (env.naclLoaded = true →
       Event.argonCall (argonParams u p) ∈ (authenticate env u p r s).trace) ∧
    argonParams u p = { pass := utf8 p, salt := utf8 ("icpasswordlogin" ++ u),
                        time := 3, mem := 65536, hashLen := 32, parallelism := 1,
                        argonType := Argon2id } ∧
    (∀ sd, Event.fromSeedCall sd ∈ (authenticate env u p r s).trace →
       env.argonHash (argonParams u p) = .ok sd) :=
  fun env u p r s =>
    ⟨argonCall_unique env u p r s,
     fun hn => argonCall_mem env u p r s hn,
     rfl,
     fromSeedCall_val env u p r s⟩

/-- Claim C8, witness: in the concrete successful run, the argon call
with the fixed parameters is present in the trace and the seed equals
the oracle output. -/
theorem spec_C8_witness :
    envOk.argonHash (argonParams "alice" "pw") = .ok (List.replicate 32 1) ∧
    Event.argonCall (argonParams "alice" "pw") ∈
      (authenticate envOk "alice" "pw" false (initialFields none 0)).trace :=
  ⟨(spec_C8 envOk "alice" "pw" false (initialFields none 0)).2.2.2
      (List.replicate 32 1) (by decide),
   (spec_C8 envOk "alice" "pw" false (initialFields none 0)).2.1 rfl⟩

set_option maxRecDepth 4000 in
theorem jsHexByte_lower : ∀ b < 256, ∀ c ∈ (jsHexByte b).data, c ∈ "0123456789abcdef".data := by
  decide

theorem foldl_append_data (l : List String) :
    ∀ (acc : String) (c : Char), c ∈ (l.foldl (fun a b => a ++ b) acc).data →
      c ∈ acc.data ∨ ∃ t ∈ l, c ∈ t.data := by
  induction l with
  | nil => intro acc c h; exact Or.inl h
  | cons hd tl ih =>
    intro acc c h
    rcases ih (acc ++ hd) c h with hx | ⟨t, ht, hc⟩
    · rw [String.data_append] at hx
      rcases List.mem_append.mp hx with hx | hx
      · exact Or.inl hx
      · exact Or.inr ⟨hd, List.mem_cons_self hd tl, hx⟩
    · exact Or.inr ⟨t, List.mem_cons_of_mem hd ht, hc⟩

theorem hexEncode_lower (bs : Bytes) (hb : ∀ b ∈ bs, b < 256) :
    ∀ c ∈ (hexEncode bs).data, c ∈ "0123456789abcdef".data := by
  intro c hc
  unfold hexEncode String.join at hc
  rcases foldl_append_data (bs.map jsHexByte) "" c hc with hx | ⟨t, ht, hct⟩
  · simp at hx
  · rcases List.mem_map.mp ht with ⟨b, hbmem, rfl⟩
    exact jsHexByte_lower b (hb b hbmem) c hct

theorem prepareCall_args (env : Env) (u p : String) (r : Bool) (s : AuthState) :
    ∀ a, Event.prepareCall a ∈ (authenticate env u p r s).trace →
      a = { userId := hexEncode (env.sha256 (utf8 u)), register := r, origin := env.origin,
            sessionKey := derEncodePublicKey env.randomKeyPair.publicKey,
            expireIn := expireInNanoseconds, targets := [] } := by
  simp only [authenticate]
  repeat' split
  all_goals simp_all [prepareCall_notin_setTimer]

/-- Claim C9: every prepareDelegationPassword call made by authenticate
passes userId equal to the hex SHA-256 digest of the raw username (and
hex encoding uses only lowercase hexadecimal characters), sessionKey
equal to the fixed 12-byte Ed25519 SubjectPublicKeyInfo DER header
followed by the raw ephemeral public key, and a requested lifetime of
exactly 1800e9 nanoseconds, 30 minutes. -/
theorem spec_C9 : ∀ (env : Env) (u p : String) (r : Bool) (s : AuthState),
    (∀ a, Event.prepareCall a ∈ (authenticate env u p r s).trace →
       (a.userId = hexEncode (env.sha256 (utf8 u)) ∧
        a.sessionKey = DER_PREFIX_BYTES ++ env.randomKeyPair.publicKey ∧
        a.expireIn = 1800 * 1000000000 ∧
        a.register = r ∧ a.origin = env.origin ∧ a.targets = [])) ∧
    DER_PREFIX_BYTES
      = [0x30, 0x2a, 0x30, 0x05, 0x06, 0x03, 0x2b, 0x65, 0x70, 0x03, 0x21, 0x00] ∧
    DER_PREFIX_BYTES.length = 12 ∧
    (∀ bs : Bytes, (∀ b ∈ bs, b < 256) →
       ∀ c ∈ (hexEncode bs).data, c ∈ "0123456789abcdef".data) := by
  intro env u p r s
  refine ⟨?_, rfl, rfl, hexEncode_lower⟩
  intro a ha
  have := prepareCall_args env u p r s a ha
  subst this
  exact ⟨rfl, rfl, rfl, rfl, rfl, rfl⟩

/-- The prepare call arguments produced by envOk for user alice. -/
def paOk : PrepareArgs :=
  { userId := hexEncode (List.replicate 32 2), register := false,
    origin := "https://example.com",
    sessionKey := derEncodePublicKey (List.replicate 32 4),
    expireIn := expireInNanoseconds, targets := [] }

/-- Claim C9, witness: the theorem applied to the concrete prepare call
of the successful envOk run, plus one concrete lowercase character
obtained from the hex digest. -/
theorem spec_C9_witness :
    (paOk.userId = hexEncode (envOk.sha256 (utf8 "alice")) ∧
     paOk.sessionKey = DER_PREFIX_BYTES ++ envOk.randomKeyPair.publicKey ∧
     paOk.expireIn = 1800 * 1000000000 ∧
     paOk.register = false ∧ paOk.origin = envOk.origin ∧ paOk.targets = []) ∧
    '0' ∈ "0123456789abcdef".data :=
  have h := spec_C9 envOk "alice" "pw" false (initialFields none 0)
  ⟨h.1 paOk (by decide),
   h.2.2.2 (List.replicate 32 2) (by decide) '0' (by decide)⟩

/-- Whether an event is one of the two canister calls. -/
def isCanisterCall (ev : Event) : Bool :=
  match ev with
  | .prepareCall _ => true
  | .getDelegationCall _ => true
  | _ => false

/-- The canister calls of a trace, in order. -/
def canisterCalls (tr : List Event) : List Event := tr.filter isCanisterCall

/-- The arguments authenticate passes to prepareDelegationPassword. -/
def prepArgsOf (env : Env) (u : String) (r : Bool) : PrepareArgs :=
  { userId := hexEncode (env.sha256 (utf8 u)), register := r, origin := env.origin,
    sessionKey := derEncodePublicKey env.randomKeyPair.publicKey,
    expireIn := expireInNanoseconds, targets := [] }

/-- The arguments authenticate passes to getDelegation after prepare
answered with pok. -/
def gdArgsOf (env : Env) (pok : PrepOk) : GetDelegationArgs :=
  { provider := "password", origin := env.origin,
    sessionKey := derEncodePublicKey env.randomKeyPair.publicKey,
    expireAt := pok.expireAt, targets := [] }

theorem canisterCalls_setTimer (env : Env) (s : AuthState) (x : Nat) :
    List.filter isCanisterCall (setExpirationTimer env s x).2 = [] := by
  simp only [setExpirationTimer, signOut]
  split
  · split <;> rfl
  · rfl

theorem getDelegationCall_notin_of_prep_err (env : Env) (u p : String) (r : Bool)
    (s : AuthState) (e : String)
    (h : env.prep = Except.error e ∨ env.prep = .ok (.err e)) :
    ∀ a, Event.getDelegationCall a ∉ (authenticate env u p r s).trace := by
  intro a
  rcases h with h | h
  all_goals
    simp only [authenticate]
    repeat' split
    all_goals simp_all [getDelegationCall_notin_setTimer]

theorem getDelegationCall_args (env : Env) (u p : String) (r : Bool) (s : AuthState) :
    ∀ a, Event.getDelegationCall a ∈ (authenticate env u p r s).trace →
      ∃ pok, env.prep = .ok (.ok pok) ∧ a = gdArgsOf env pok := by
  intro a ha
  rcases hp : env.prep with e | pr
  · exact absurd ha (getDelegationCall_notin_of_prep_err env u p r s e (Or.inl hp) a)
  · rcases pr with pok | e
    · refine ⟨pok, rfl, ?_⟩
      revert ha
      simp only [authenticate, hp]
      repeat' split
      all_goals intro ha
      all_goals simp_all [getDelegationCall_notin_setTimer, gdArgsOf]
    · exact absurd ha (getDelegationCall_notin_of_prep_err env u p r s e (Or.inr hp) a)

theorem canisterCalls_shape (env : Env) (u p : String) (r : Bool) (s : AuthState)
    (pok : PrepOk) (hp : env.prep = .ok (.ok pok)) (a : GetDelegationArgs)
    (ha : Event.getDelegationCall a ∈ (authenticate env u p r s).trace) :
    canisterCalls (authenticate env u p r s).trace =
      [Event.prepareCall (prepArgsOf env u r), Event.getDelegationCall (gdArgsOf env pok)] := by
  revert ha
  simp only [authenticate, hp]
  repeat' split
  all_goals intro ha
  all_goals simp_all [canisterCalls, isCanisterCall, prepArgsOf, gdArgsOf,
    canisterCalls_setTimer, getDelegationCall_notin_setTimer]

/-- Claim C7: within an authentication attempt, an err answer (or a
thrown call) from prepareDelegationPassword means getDelegation is never
invoked; and whenever getDelegation is invoked, prepare answered ok, the
expireAt argument is exactly the prepared expireAt, and the canister
calls of the attempt are exactly one prepare followed by that one
getDelegation, in this order. -/
theorem spec_C7 : ∀ (env : Env) (u p : String) (r : Bool) (s : AuthState),
    (∀ e, (env.prep = Except.error e ∨ env.prep = .ok (.err e)) →
       ∀ a, Event.getDelegationCall a ∉ (authenticate env u p r s).trace) ∧
    (∀ a, Event.getDelegationCall a ∈ (authenticate env u p r s).trace →
       ∃ pok, env.prep = .ok (.ok pok) ∧ a.expireAt = pok.expireAt ∧
         canisterCalls (authenticate env u p r s).trace =
           [Event.prepareCall (prepArgsOf env u r), Event.getDelegationCall a]) := by
  intro env u p r s
  refine ⟨fun e he a => getDelegationCall_notin_of_prep_err env u p r s e he a, ?_⟩
  intro a ha
  rcases getDelegationCall_args env u p r s a ha with ⟨pok, hp, haeq⟩
  refine ⟨pok, hp, ?_, ?_⟩
  · rw [haeq]; rfl
  · rw [haeq]
    exact canisterCalls_shape env u p r s pok hp a ha

/-- An environment in which the canister rejects the prepare step with
the err string nope. -/
def envC7w : Env := { envOk with prep := .ok (.err "nope") }

/-- The getDelegation call arguments of the successful envOk run. -/
def gaOk : GetDelegationArgs :=
  { provider := "password", origin := "https://example.com",
    sessionKey := derEncodePublicKey (List.replicate 32 4),
    expireAt := 1000000000, targets := [] }

/-- Claim C7, witness: with an err from prepare, the concrete run makes
no getDelegation call, and in the successful envOk run the canister call
list is exactly prepare then getDelegation with the prepared expireAt. -/
theorem spec_C7_witness :
    Event.getDelegationCall gaOk ∉
      (authenticate envC7w "alice" "pw" false (initialFields none 0)).trace ∧
    canisterCalls (authenticate envOk "alice" "pw" false (initialFields none 0)).trace =
      [Event.prepareCall (prepArgsOf envOk "alice" false), Event.getDelegationCall gaOk] := by
  constructor
  · exact (spec_C7 envC7w "alice" "pw" false (initialFields none 0)).1 "nope" (Or.inr rfl) gaOk
  · rcases (spec_C7 envOk "alice" "pw" false (initialFields none 0)).2 gaOk (by decide)
      with ⟨pok, hp, hx, hc⟩
    exact hc
